import Mathlib

/-!
Verification of the resource/admission core of the Night_Market gateway:
proxy pool manager (services/proxy/manager.py, services/proxy/models.py),
hierarchical rate limiter and admission controller
(services/api/middleware.py), stale-while-revalidate cache middleware
(services/api/middleware.py) and the compute-once cache primitive
(services/core/cache.py).

Shallow embedding conventions:
* Python floats are modelled as `ℚ`; timestamps (both `time.time()` seconds
  and `datetime` values) are modelled as `ℚ` seconds.
* Redis integer counters (`INCR`/`DECR`) are modelled as `String → ℤ` maps
  updated pointwise; Redis sets as `Finset String`.
* `datetime.isoformat`/`fromisoformat` form a bijection between `datetime`
  values and non-empty ISO strings (with `''` standing for `None`), and
  `json.dumps`/`json.loads` round-trip a list of floats through a non-empty
  string; serialized fields are therefore modelled at the value level as
  `Option` of the payload type, `none` standing for the falsy `''`.
-/

namespace NightMarket

/-- `services/proxy/models.py` `Proxy` dataclass.  `response_times` is
`Optional[List[float]]` in the source, but `__post_init__` replaces `None`
with `[]`, so every constructed record carries a genuine list. -/
structure Proxy where
  url : String
  provider : String
  proxy_type : String
  location : Option String := none
  username : Option String := none
  password : Option String := none
  sticky_session_id : Option String := none
  requests : ℕ := 0
  failures : ℕ := 0
  success : ℕ := 0
  total_bandwidth_mb : ℚ := 0
  last_used : Option ℚ := none
  last_error : Option String := none
  response_times : List ℚ := []
  deriving Repr, DecidableEq

namespace Proxy

/-- Python `self.response_times[-100:]`: the last `n` elements of a list. -/
def lastN (n : ℕ) (l : List ℚ) : List ℚ := l.drop (l.length - n)

/-- `Proxy.failure_rate`: `failures / requests * 100`, `0` when unused. -/
def failure_rate (p : Proxy) : ℚ :=
  if 0 < p.requests then (p.failures : ℚ) / (p.requests : ℚ) * 100 else 0

/-- `Proxy.avg_response_time`: mean of the last 100 samples, `0` when the
window is empty (`if not self.response_times: return 0`). -/
def avg_response_time (p : Proxy) : ℚ :=
  if p.response_times = [] then 0
  else (lastN 100 p.response_times).sum / ((lastN 100 p.response_times).length : ℚ)

/-- `Proxy.health_score` evaluated at wall-clock time `now` (seconds):
success-rate, response-time and recency components, capped at 100. -/
def health_score (now : ℚ) (p : Proxy) : ℚ :=
  if p.requests = 0 then 100
  else
    let success_rate : ℚ := (p.success : ℚ) / (p.requests : ℚ) * 60
    let avg_time : ℚ := p.avg_response_time
    let time_score : ℚ := if 0 < avg_time then max 0 (30 - avg_time / 50) else 30
    let recency_score : ℚ :=
      match p.last_used with
      | some t => max 0 (10 - ((now - t) / 60) / 6)
      | none => 10
    min 100 (success_rate + time_score + recency_score)

end Proxy

/-- The nonnegativity of each health-score component. -/
lemma health_score_nonneg (now : ℚ) (p : Proxy) : 0 ≤ p.health_score now := by
  unfold Proxy.health_score
  split
  · norm_num
  · refine le_min (by norm_num) ?_
    have h1 : (0 : ℚ) ≤ (p.success : ℚ) / (p.requests : ℚ) * 60 := by
      have := div_nonneg (Nat.cast_nonneg p.success) (Nat.cast_nonneg (α := ℚ) p.requests)
      positivity
    have h2 : (0 : ℚ) ≤ (if 0 < p.avg_response_time then max 0 (30 - p.avg_response_time / 50) else 30) := by
      split
      · exact le_max_left 0 _
      · norm_num
    have h3 : (0 : ℚ) ≤ (match p.last_used with
        | some t => max 0 (10 - ((now - t) / 60) / 6)
        | none => (10 : ℚ)) := by
      cases p.last_used with
      | some t => exact le_max_left 0 _
      | none => norm_num
    linarith

lemma health_score_le_100 (now : ℚ) (p : Proxy) : p.health_score now ≤ 100 := by
  unfold Proxy.health_score
  split
  · norm_num
  · exact min_le_left 100 _

/-- **C6.** For every `Proxy`, `health_score` lies in `[0, 100]`; an unused
proxy (`requests = 0`) scores exactly `100`; and a used proxy with
`success ≤ requests`, nonnegative recorded response times and a recorded
`last_used` scores the clamped sum of a success-rate component of at most
60 points, the response-time component `max 0 (30 − avg/50)` and the
recency component `max 0 (10 − minutes/6)`. -/
theorem C6_health_score_bounds :
    (∀ (now : ℚ) (p : Proxy), 0 ≤ p.health_score now ∧ p.health_score now ≤ 100) ∧
    (∀ (now : ℚ) (p : Proxy), p.requests = 0 → p.health_score now = 100) ∧
    (∀ (now : ℚ) (p : Proxy) (t : ℚ), 0 < p.requests → p.success ≤ p.requests →
      (∀ x ∈ p.response_times, 0 ≤ x) → p.last_used = some t →
      (p.success : ℚ) / (p.requests : ℚ) * 60 ≤ 60 ∧
      p.health_score now =
        min 100 ((p.success : ℚ) / (p.requests : ℚ) * 60
          + max 0 (30 - p.avg_response_time / 50)
          + max 0 (10 - ((now - t) / 60) / 6))) := by
  refine ⟨fun now p => ⟨health_score_nonneg now p, health_score_le_100 now p⟩,
    fun now p h => by unfold Proxy.health_score; simp [h], ?_⟩
  intro now p t hreq hsucc hrt hlast
  have hq : (0 : ℚ) < (p.requests : ℚ) := by exact_mod_cast hreq
  constructor
  · have : (p.success : ℚ) / (p.requests : ℚ) ≤ 1 := by
      rw [div_le_one hq]; exact_mod_cast hsucc
    linarith
  · unfold Proxy.health_score
    rw [if_neg (Nat.pos_iff_ne_zero.mp hreq), hlast]
    have havg : 0 ≤ p.avg_response_time := by
      unfold Proxy.avg_response_time
      split
      · exact le_refl 0
      · refine div_nonneg ?_ (Nat.cast_nonneg _)
        refine List.sum_nonneg ?_
        intro x hx
        exact hrt x (List.mem_of_mem_drop hx)
    have htime : (if 0 < p.avg_response_time then max 0 (30 - p.avg_response_time / 50) else (30:ℚ))
        = max 0 (30 - p.avg_response_time / 50) := by
      rcases lt_or_eq_of_le havg with h | h
      · rw [if_pos h]
      · rw [if_neg (by rw [← h]; exact lt_irrefl 0), ← h]
        norm_num
    dsimp only
    rw [htime]

/-- A sample proxy record used to instantiate universally quantified
theorems at concrete inputs. -/
def exProxy : Proxy :=
  { url := "http://p.example", provider := "brightdata", proxy_type := "isp",
    requests := 20, failures := 4, success := 16,
    last_used := some 0, response_times := [100, 200] }

/-- Witness for C6: the used-proxy decomposition evaluated on `exProxy`. -/
theorem C6_health_score_bounds_witness :
    (exProxy.success : ℚ) / (exProxy.requests : ℚ) * 60 ≤ 60 ∧
    exProxy.health_score 60 =
      min 100 ((exProxy.success : ℚ) / (exProxy.requests : ℚ) * 60
        + max 0 (30 - exProxy.avg_response_time / 50)
        + max 0 (10 - ((60 - 0) / 60) / 6)) :=
  C6_health_score_bounds.2.2 60 exProxy 0 (by decide) (by decide)
    (by decide) rfl

/-! ## Proxy pool manager (`services/proxy/manager.py`)

Redis state: per-proxy in-flight counters (`INCR`/`DECR` on string keys),
the active/burned id sets, per-proxy detail hashes and the alerts channel.
`proxy_id` truncates a SHA-256 hex digest; the digest function is carried
as an explicit parameter `h10` (the claims hold for every digest). -/

/-- `manager.proxy_id`: `"{provider}:{proxy_type}:{sticky}:{sha256(basis)[:10]}"`
with `basis = username or url` and `sticky = sticky_session_id or "none"`. -/
def proxy_id (h10 : String → String) (p : Proxy) : String :=
  p.provider ++ ":" ++ p.proxy_type ++ ":" ++ (p.sticky_session_id.getD "none")
    ++ ":" ++ h10 (p.username.getD p.url)

/-- Redis in-flight counters, one integer per proxy id key. -/
def InflightMap : Type := String → ℤ

/-- `SETTINGS` defaults (`services/proxy/utils/settings.py`):
`PROXY_MAX_INFLIGHT` defaults to 8, `PROXY_EWMA_ALPHA` to 0.2. -/
def SETTINGS_max_inflight : ℤ := 8

def SETTINGS_ewma_alpha : ℚ := 1/5

/-- The acquisition tail of `ProxyManager.get_proxy` (manager.py lines
250-268), entered with the ε-greedy choice `pick1` already made and
`rest` the remaining scored candidates (`sp[1] is not pick`): `INCR` the
chosen counter; if it now exceeds `maxInflight`, `DECR` it back and, if any
candidate remains, pick one (`random.choices`, modelled by the index `j`)
and `INCR` its counter unconditionally; return the pick and the counters. -/
def get_proxy_acquire (h10 : String → String) (maxInflight : ℤ)
    (pick1 : Proxy) (rest : List Proxy) (j : ℕ) (m : InflightMap) :
    Option Proxy × InflightMap :=
  let k1 := proxy_id h10 pick1
  let inflight := m k1 + 1
  let m1 : InflightMap := Function.update m k1 inflight
  if maxInflight < inflight then
    let m2 : InflightMap := Function.update m1 k1 (m1 k1 - 1)
    match rest with
    | [] => (none, m2)
    | _ :: _ =>
      let pick2 := rest.getD (j % rest.length) pick1
      let k2 := proxy_id h10 pick2
      (some pick2, Function.update m2 k2 (m2 k2 + 1))
  else
    (some pick1, m1)

/-- The transient `INCR`/`DECR` on the first choice cancels out. -/
lemma update_incr_decr (m : InflightMap) (k : String) :
    (Function.update (Function.update m k (m k + 1)) k
      (Function.update m k (m k + 1) k - 1)) = m := by
  funext q
  by_cases h : q = k
  · subst h; simp
  · simp [Function.update, h]

/-- Case analysis of `get_proxy_acquire`. -/
lemma get_proxy_acquire_cases (h10 : String → String) (mi : ℤ)
    (pick1 : Proxy) (rest : List Proxy) (j : ℕ) (m : InflightMap) :
    (¬ mi < m (proxy_id h10 pick1) + 1 →
      get_proxy_acquire h10 mi pick1 rest j m =
        (some pick1, Function.update m (proxy_id h10 pick1)
          (m (proxy_id h10 pick1) + 1))) ∧
    (mi < m (proxy_id h10 pick1) + 1 → rest = [] →
      get_proxy_acquire h10 mi pick1 rest j m = (none, m)) ∧
    (mi < m (proxy_id h10 pick1) + 1 → rest ≠ [] →
      get_proxy_acquire h10 mi pick1 rest j m =
        (some (rest.getD (j % rest.length) pick1),
         Function.update m (proxy_id h10 (rest.getD (j % rest.length) pick1))
           (m (proxy_id h10 (rest.getD (j % rest.length) pick1)) + 1))) := by
  refine ⟨fun h => ?_, fun h he => ?_, fun h hne => ?_⟩
  · unfold get_proxy_acquire
    rw [if_neg h]
  · subst he
    unfold get_proxy_acquire
    rw [if_pos h]
    simp [update_incr_decr]
  · unfold get_proxy_acquire
    rw [if_pos h]
    match rest, hne with
    | r :: rs, _ =>
      simp only
      rw [show (Function.update (Function.update m (proxy_id h10 pick1)
            (m (proxy_id h10 pick1) + 1)) (proxy_id h10 pick1)
            (Function.update m (proxy_id h10 pick1)
              (m (proxy_id h10 pick1) + 1) (proxy_id h10 pick1) - 1)) = m
          from update_incr_decr m _]

/-- A stand-in for the truncated SHA-256 hex digest in concrete runs; the
pool theorems are universally quantified over the digest function. -/
def h10c : String → String := fun _ => "h"

def cexP1 : Proxy := { url := "http://a.example", provider := "prov1", proxy_type := "isp" }

def cexP2 : Proxy := { url := "http://b.example", provider := "prov2", proxy_type := "isp" }

/-- Counters with both candidates already at the default capacity 8. -/
def cexInflight : InflightMap := fun _ => 8

def zeroInflight : InflightMap := fun _ => 0

/-- **C1 counterexample.** With both candidates at the in-flight cap
(8 = `SETTINGS.max_inflight`), `get_proxy` rejects the first choice, retries,
increments the retry candidate without re-checking the bound, and returns it
with its counter at 9 > 8 — so the claim "the returned proxy's counter after
the increment is at most `max_inflight`" fails. -/
theorem C1_counterexample :
    (get_proxy_acquire h10c SETTINGS_max_inflight cexP1 [cexP2] 0 cexInflight).1
        = some cexP2 ∧
    SETTINGS_max_inflight <
      (get_proxy_acquire h10c SETTINGS_max_inflight cexP1 [cexP2] 0
        cexInflight).2 (proxy_id h10c cexP2) := by
  constructor
  · decide
  · decide

/-- **C1 (amended).** The in-flight cap is enforced only on the first chosen
candidate: (a) when the first choice's incremented counter does not exceed
`maxInflight`, that proxy is returned with its counter incremented once and
still at most `maxInflight`; (b) when it exceeds and no candidate remains,
the call returns absent with the counters fully restored; (c) when it
exceeds and candidates remain, the single retry increments the retry pick's
counter unconditionally — without re-checking the bound — and returns it,
so on the retry path the returned counter may exceed `maxInflight`. -/
theorem C1_inflight_cap_first_choice (h10 : String → String) (mi : ℤ)
    (pick1 : Proxy) (rest : List Proxy) (j : ℕ) (m : InflightMap) :
    (¬ mi < m (proxy_id h10 pick1) + 1 →
      (get_proxy_acquire h10 mi pick1 rest j m).1 = some pick1 ∧
      (get_proxy_acquire h10 mi pick1 rest j m).2 (proxy_id h10 pick1)
        = m (proxy_id h10 pick1) + 1 ∧
      (get_proxy_acquire h10 mi pick1 rest j m).2 (proxy_id h10 pick1) ≤ mi) ∧
    (mi < m (proxy_id h10 pick1) + 1 → rest = [] →
      get_proxy_acquire h10 mi pick1 rest j m = (none, m)) ∧
    (mi < m (proxy_id h10 pick1) + 1 → rest ≠ [] →
      (get_proxy_acquire h10 mi pick1 rest j m).1
          = some (rest.getD (j % rest.length) pick1) ∧
      (get_proxy_acquire h10 mi pick1 rest j m).2
          (proxy_id h10 (rest.getD (j % rest.length) pick1))
        = m (proxy_id h10 (rest.getD (j % rest.length) pick1)) + 1) := by
  obtain ⟨hA, hB, hC⟩ := get_proxy_acquire_cases h10 mi pick1 rest j m
  refine ⟨fun h => ?_, hB, fun h hne => ?_⟩
  · rw [hA h]
    refine ⟨rfl, by simp, ?_⟩
    simp only [Function.update_same]
    omega
  · rw [hC h hne]
    exact ⟨rfl, by simp⟩

/-- Witness for C1 (amended), part (a): an idle pool returns the first
choice with its counter at 1 ≤ 8. -/
theorem C1_inflight_cap_first_choice_witness :
    (get_proxy_acquire h10c 8 cexP1 [] 0 zeroInflight).1 = some cexP1 ∧
    (get_proxy_acquire h10c 8 cexP1 [] 0 zeroInflight).2 (proxy_id h10c cexP1)
      ≤ 8 :=
  let h := (C1_inflight_cap_first_choice h10c 8 cexP1 [] 0 zeroInflight).1
    (by decide)
  ⟨h.1, h.2.2⟩

/-- The per-proxy Redis detail hash mutated by `report_usage`. -/
structure ProxyRec where
  requests : ℕ := 0
  failures : ℕ := 0
  success : ℕ := 0
  total_bandwidth_mb : ℚ := 0
  last_error : String := ""
  last_used : ℚ := 0
  response_time_ewma_ms : Option ℚ := none
  deriving Repr, DecidableEq

/-- Payload of the burn alert published on `system:alerts`
(`_burn_proxy`): provider and failure rate from the in-call `Proxy`
snapshot, plus the proxy url. -/
structure BurnAlert where
  provider : String
  failure_rate : ℚ
  proxy_url : String
  deriving Repr, DecidableEq

def mkBurnAlert (p : Proxy) : BurnAlert :=
  { provider := p.provider, failure_rate := p.failure_rate, proxy_url := p.url }

/-- Redis state owned by the proxy manager: detail hashes, in-flight
counters, active/burned id sets, per-key expiry deadlines (seconds) and the
list of published alerts. -/
structure PoolState where
  recs : String → ProxyRec
  inflight : InflightMap
  active : Finset String
  burned : Finset String
  retention : String → Option ℚ
  alerts : List BurnAlert

/-- `ProxyManager._burn_proxy` at wall-clock `now`: `SREM` from the active
set, `SADD` to the burned set, `EXPIRE` the detail key to 24h from now,
publish a burn alert.  No already-burned guard exists in the source. -/
def burn_proxy (h10 : String → String) (now : ℚ) (p : Proxy) (st : PoolState) :
    PoolState :=
  let pid := proxy_id h10 p
  { st with
    active := st.active.erase pid,
    burned := insert pid st.burned,
    retention := Function.update st.retention pid (some (now + 86400)),
    alerts := st.alerts ++ [mkBurnAlert p] }

/-- `ProxyManager.report_usage`: pipelined `HINCRBY` of requests and
success/failures, bandwidth accumulation, last_error/last_used update, EWMA
update, `DECR` of the in-flight counter; then the burn guard re-reads the
just-written counters and burns when `failure_rate > 30 ∧ requests > 10`. -/
def report_usage (h10 : String → String) (p : Proxy) (succ : Bool)
    (response_time bandwidth_mb : ℚ) (error : Option String) (now : ℚ)
    (st : PoolState) : PoolState :=
  let pid := proxy_id h10 p
  let r := st.recs pid
  let ewma0 := r.response_time_ewma_ms.getD response_time
  let ewma := SETTINGS_ewma_alpha * response_time + (1 - SETTINGS_ewma_alpha) * ewma0
  let r1 : ProxyRec :=
    { r with
      requests := r.requests + 1,
      success := if succ then r.success + 1 else r.success,
      failures := if succ then r.failures else r.failures + 1,
      total_bandwidth_mb := r.total_bandwidth_mb + bandwidth_mb,
      last_error := error.getD "",
      last_used := now,
      response_time_ewma_ms := some ewma }
  let st1 : PoolState :=
    { st with
      recs := Function.update st.recs pid r1,
      inflight := Function.update st.inflight pid (st.inflight pid - 1) }
  let req := r1.requests
  let fail := r1.failures
  let failure_rate : ℚ := if req ≠ 0 then (fail : ℚ) / (req : ℚ) * 100 else 0
  if 30 < failure_rate ∧ 10 < req then burn_proxy h10 now p st1 else st1

/-- A pool whose (single) detail record is past the burn threshold after
one more failing report: requests 10, failures 10. -/
def cexPool0 : PoolState :=
  { recs := fun _ => { requests := 10, failures := 10 },
    inflight := fun _ => 1,
    active := {proxy_id h10c cexP1},
    burned := ∅,
    retention := fun _ => none,
    alerts := [] }

/-- **C2 counterexample.** Two consecutive failing `report_usage` calls on a
proxy past the burn threshold each invoke `_burn_proxy` and each publish an
alert: after the second call two burn alerts have been published (an
idempotent burn would have published one), and likewise calling
`_burn_proxy` twice directly duplicates the alert even though the proxy is
already in the burned set. -/
theorem C2_counterexample :
    (report_usage h10c cexP1 false 100 0 none 0
        (report_usage h10c cexP1 false 100 0 none 0 cexPool0)).alerts.length = 2 ∧
    proxy_id h10c cexP1 ∈ (burn_proxy h10c 0 cexP1 cexPool0).burned ∧
    (burn_proxy h10c 5 cexP1 (burn_proxy h10c 0 cexP1 cexPool0)).alerts.length = 2 := by
  refine ⟨?_, ?_, ?_⟩
  · norm_num [report_usage, burn_proxy, cexPool0]
  · simp [burn_proxy, cexPool0]
  · simp [burn_proxy, cexPool0]

/-- **C2 (amended).** Burning is idempotent only on set membership: a second
`_burn_proxy` on an already-burned proxy leaves the active and burned sets
unchanged, but publishes a duplicate burn alert and re-arms the 24h
retention expiry; and every further failing `report_usage` whose post-update
counters satisfy `failure_rate > 30% ∧ requests > 10` re-invokes the burn,
publishing another alert. -/
theorem C2_burn_sets_idempotent_alert_duplicated (h10 : String → String)
    (p : Proxy) (st : PoolState) (t1 t2 rt bw now : ℚ) (err : Option String) :
    ((burn_proxy h10 t2 p (burn_proxy h10 t1 p st)).active
        = (burn_proxy h10 t1 p st).active ∧
     (burn_proxy h10 t2 p (burn_proxy h10 t1 p st)).burned
        = (burn_proxy h10 t1 p st).burned ∧
     (burn_proxy h10 t2 p (burn_proxy h10 t1 p st)).retention (proxy_id h10 p)
        = some (t2 + 86400) ∧
     (burn_proxy h10 t2 p (burn_proxy h10 t1 p st)).alerts
        = (burn_proxy h10 t1 p st).alerts ++ [mkBurnAlert p]) ∧
    (30 < (((st.recs (proxy_id h10 p)).failures : ℚ) + 1)
        / (((st.recs (proxy_id h10 p)).requests : ℚ) + 1) * 100 →
     10 < (st.recs (proxy_id h10 p)).requests + 1 →
     (report_usage h10 p false rt bw err now st).alerts
        = st.alerts ++ [mkBurnAlert p] ∧
     (report_usage h10 p false rt bw err now st).burned
        = insert (proxy_id h10 p) st.burned) := by
  constructor
  · refine ⟨?_, ?_, ?_, rfl⟩
    · simp [burn_proxy]
    · simp [burn_proxy]
    · simp [burn_proxy]
  · intro hrate hreq
    unfold report_usage
    dsimp only
    rw [if_pos]
    · exact ⟨rfl, rfl⟩
    · refine ⟨?_, hreq⟩
      rw [if_pos (show (st.recs (proxy_id h10 p)).requests + 1 ≠ 0 by omega)]
      push_cast
      exact hrate

/-- Witness for C2 (amended): the failing report on `cexPool0` crosses the
threshold (failure rate 100%, 11 requests) and appends the burn alert. -/
theorem C2_burn_amended_witness :
    (report_usage h10c cexP1 false 100 0 none 0 cexPool0).alerts
        = cexPool0.alerts ++ [mkBurnAlert cexP1] ∧
    (report_usage h10c cexP1 false 100 0 none 0 cexPool0).burned
        = insert (proxy_id h10c cexP1) cexPool0.burned :=
  (C2_burn_sets_idempotent_alert_duplicated h10c cexP1 cexPool0 0 0 100 0 0
      none).2 (by norm_num [cexPool0]) (by norm_num [cexPool0])

/-! ## In-flight accounting traces (C9) -/

/-- The map effect of one `get_proxy` acquisition: the returned proxy's
counter is incremented exactly once (net of the transient first-choice
`INCR`/`DECR` on the retry path) and nothing else changes; an absent result
leaves the counters untouched. -/
lemma get_proxy_acquire_inflight (h10 : String → String) (mi : ℤ)
    (pick1 : Proxy) (rest : List Proxy) (j : ℕ) (m : InflightMap) :
    (∀ p, (get_proxy_acquire h10 mi pick1 rest j m).1 = some p →
      (get_proxy_acquire h10 mi pick1 rest j m).2
        = Function.update m (proxy_id h10 p) (m (proxy_id h10 p) + 1)) ∧
    ((get_proxy_acquire h10 mi pick1 rest j m).1 = none →
      (get_proxy_acquire h10 mi pick1 rest j m).2 = m) := by
  obtain ⟨hA, hB, hC⟩ := get_proxy_acquire_cases h10 mi pick1 rest j m
  by_cases h : mi < m (proxy_id h10 pick1) + 1
  · by_cases hrest : rest = []
    · rw [hB h hrest]
      exact ⟨fun p hp => Option.noConfusion hp, fun _ => rfl⟩
    · rw [hC h hrest]
      refine ⟨fun p hp => ?_, fun hn => Option.noConfusion hn⟩
      obtain rfl : rest.getD (j % rest.length) pick1 = p := Option.some.inj hp
      rfl
  · rw [hA h]
    refine ⟨fun p hp => ?_, fun hn => Option.noConfusion hn⟩
    obtain rfl : pick1 = p := Option.some.inj hp
    rfl

/-- One client-visible operation against the in-flight counters: a
`get_proxy` call (with its already-made ε-greedy choice and retry choice) or
the `DECR` performed by `report_usage`. -/
inductive PoolEvent where
  | acquire (pick1 : Proxy) (rest : List Proxy) (j : ℕ) (maxInflight : ℤ)
  | release (p : Proxy)

/-- Effect of one event on the counters, together with the proxy returned
by an acquire. -/
def eventStep (h10 : String → String) (m : InflightMap) :
    PoolEvent → InflightMap × Option Proxy
  | .acquire pick1 rest j mi =>
    ((get_proxy_acquire h10 mi pick1 rest j m).2,
     (get_proxy_acquire h10 mi pick1 rest j m).1)
  | .release p =>
    (Function.update m (proxy_id h10 p) (m (proxy_id h10 p) - 1), none)

def runEvents (h10 : String → String) (m : InflightMap) :
    List PoolEvent → InflightMap
  | [] => m
  | e :: tr => runEvents h10 (eventStep h10 m e).1 tr

/-- Number of acquires along the run from `m` that returned a proxy with id
`k`. -/
def acqCount (h10 : String → String) (m : InflightMap) :
    List PoolEvent → String → ℤ
  | [], _ => 0
  | e :: tr, k =>
    (match (eventStep h10 m e).2 with
     | some p => if proxy_id h10 p = k then 1 else 0
     | none => 0) + acqCount h10 (eventStep h10 m e).1 tr k

/-- Number of releases for id `k` in the trace. -/
def relCount (h10 : String → String) : List PoolEvent → String → ℤ
  | [], _ => 0
  | .acquire _ _ _ _ :: tr, k => relCount h10 tr k
  | .release p :: tr, k => (if proxy_id h10 p = k then 1 else 0) + relCount h10 tr k

/-- Each counter equals its initial value plus successful acquires minus
releases. -/
lemma runEvents_eq_counts (h10 : String → String) (tr : List PoolEvent) :
    ∀ (m : InflightMap) (k : String),
      runEvents h10 m tr k = m k + acqCount h10 m tr k - relCount h10 tr k := by
  induction tr with
  | nil => intro m k; simp [runEvents, acqCount, relCount]
  | cons e tr ih =>
    intro m k
    have hstep : (eventStep h10 m e).1 k
        = m k + (match (eventStep h10 m e).2 with
            | some p => if proxy_id h10 p = k then (1:ℤ) else 0
            | none => 0)
          - (match e with
            | .release p => if proxy_id h10 p = k then (1:ℤ) else 0
            | _ => 0) := by
      cases e with
      | acquire pick1 rest j mi =>
        obtain ⟨hsome, hnone⟩ := get_proxy_acquire_inflight h10 mi pick1 rest j m
        cases hres : (get_proxy_acquire h10 mi pick1 rest j m).1 with
        | none =>
          simp only [eventStep, hres]
          rw [hnone hres]
          simp
        | some p =>
          simp only [eventStep, hres]
          rw [hsome p hres]
          by_cases hk : proxy_id h10 p = k
          · subst hk; simp
          · rw [Function.update_noteq (fun hh => hk hh.symm)]
            simp [hk]
      | release p =>
        simp only [eventStep]
        by_cases hk : proxy_id h10 p = k
        · subst hk; simp
        · rw [Function.update_noteq (fun hh => hk hh.symm)]
          simp [hk]
    calc runEvents h10 m (e :: tr) k
        = runEvents h10 (eventStep h10 m e).1 tr k := rfl
      _ = (eventStep h10 m e).1 k + acqCount h10 (eventStep h10 m e).1 tr k
            - relCount h10 tr k := ih _ k
      _ = m k + acqCount h10 m (e :: tr) k - relCount h10 (e :: tr) k := by
          rw [hstep]
          cases e with
          | acquire pick1 rest j mi =>
            simp only [acqCount, relCount, eventStep]
            ring
          | release p =>
            simp only [acqCount, relCount, eventStep]
            ring

/-- **C9.** In-flight accounting balances: (1) a `get_proxy` call that
returns a proxy increments exactly that proxy's counter by one and leaves
every other counter unchanged, while an absent result leaves all counters
unchanged; (2) `report_usage` decrements exactly the reported proxy's
counter by one; (3) composing the two returns the counter to its
pre-acquire value; (4) along any event trace in which every prefix has at
most as many releases per proxy id as successful acquires (one
`report_usage` per successful `get_proxy`), counters that start nonnegative
never go negative. -/
theorem C9_inflight_balance :
    (∀ (h10 : String → String) (mi : ℤ) (pick1 : Proxy) (rest : List Proxy)
        (j : ℕ) (m : InflightMap) (p : Proxy),
      (get_proxy_acquire h10 mi pick1 rest j m).1 = some p →
      (get_proxy_acquire h10 mi pick1 rest j m).2
        = Function.update m (proxy_id h10 p) (m (proxy_id h10 p) + 1)) ∧
    (∀ (h10 : String → String) (p : Proxy) (succ : Bool) (rt bw : ℚ)
        (err : Option String) (now : ℚ) (st : PoolState),
      (report_usage h10 p succ rt bw err now st).inflight
        = Function.update st.inflight (proxy_id h10 p)
            (st.inflight (proxy_id h10 p) - 1)) ∧
    (∀ (h10 : String → String) (mi : ℤ) (pick1 : Proxy) (rest : List Proxy)
        (j : ℕ) (m : InflightMap) (p : Proxy) (succ : Bool) (rt bw : ℚ)
        (err : Option String) (now : ℚ) (st : PoolState),
      (get_proxy_acquire h10 mi pick1 rest j m).1 = some p →
      st.inflight = (get_proxy_acquire h10 mi pick1 rest j m).2 →
      (report_usage h10 p succ rt bw err now st).inflight (proxy_id h10 p)
        = m (proxy_id h10 p)) ∧
    (∀ (h10 : String → String) (m0 : InflightMap) (tr : List PoolEvent),
      (∀ k, 0 ≤ m0 k) →
      (∀ (n : ℕ) (k : String),
        relCount h10 (tr.take n) k ≤ acqCount h10 m0 (tr.take n) k) →
      ∀ (n : ℕ) (k : String), 0 ≤ runEvents h10 m0 (tr.take n) k) := by
  have hrel : ∀ (h10 : String → String) (p : Proxy) (succ : Bool) (rt bw : ℚ)
      (err : Option String) (now : ℚ) (st : PoolState),
      (report_usage h10 p succ rt bw err now st).inflight
        = Function.update st.inflight (proxy_id h10 p)
            (st.inflight (proxy_id h10 p) - 1) := by
    intro h10 p succ rt bw err now st
    unfold report_usage
    dsimp only
    rw [apply_ite PoolState.inflight]
    simp [burn_proxy]
  refine ⟨?_, hrel, ?_, ?_⟩
  · intro h10 mi pick1 rest j m p hp
    exact (get_proxy_acquire_inflight h10 mi pick1 rest j m).1 p hp
  · intro h10 mi pick1 rest j m p succ rt bw err now st hp hst
    rw [hrel, hst, (get_proxy_acquire_inflight h10 mi pick1 rest j m).1 p hp]
    simp
  · intro h10 m0 tr h0 hbal n k
    rw [runEvents_eq_counts]
    have := hbal n k
    have := h0 k
    omega

/-- Witness for C9, part (4): an acquire immediately followed by its release
is a balanced trace on an idle pool; every counter stays nonnegative at
every step. -/
theorem C9_inflight_balance_witness :
    0 ≤ runEvents h10c zeroInflight
      ([PoolEvent.acquire cexP1 [] 0 8, PoolEvent.release cexP1].take 2)
      (proxy_id h10c cexP1) :=
  C9_inflight_balance.2.2.2 h10c zeroInflight
    [PoolEvent.acquire cexP1 [] 0 8, PoolEvent.release cexP1]
    (fun _ => le_refl 0)
    (by
      have hstep2 : eventStep h10c zeroInflight (PoolEvent.acquire cexP1 [] 0 8)
          = (Function.update zeroInflight (proxy_id h10c cexP1)
              (zeroInflight (proxy_id h10c cexP1) + 1), some cexP1) := by
        simp only [eventStep]
        rw [(get_proxy_acquire_cases h10c 8 cexP1 [] 0 zeroInflight).1 (by decide)]
      intro n k
      match n with
      | 0 => simp [relCount, acqCount]
      | 1 =>
        show relCount h10c [PoolEvent.acquire cexP1 [] 0 8] k
          ≤ acqCount h10c zeroInflight [PoolEvent.acquire cexP1 [] 0 8] k
        simp only [relCount, acqCount, hstep2]
        by_cases hk : proxy_id h10c cexP1 = k
        · simp [hk, eventStep]
        · simp [hk, eventStep]
      | (n + 2) =>
        have htake : ([PoolEvent.acquire cexP1 [] 0 8,
            PoolEvent.release cexP1] : List PoolEvent).take (n + 2)
            = [PoolEvent.acquire cexP1 [] 0 8, PoolEvent.release cexP1] :=
          List.take_of_length_le (by simp)
        rw [htake]
        simp only [relCount, acqCount, hstep2]
        by_cases hk : proxy_id h10c cexP1 = k
        · simp [hk, eventStep]
        · simp [hk, eventStep])
    2 (proxy_id h10c cexP1)

/-! ## Rate limiter and admission controller
(`services/api/middleware.py`, `EnhancedRateLimitMiddleware`) -/

/-- One token bucket: remaining tokens and the last refill timestamp. -/
structure Bucket where
  tokens : ℚ
  last_refill : ℚ
  deriving Repr, DecidableEq

/-- Result of one atomic check-and-debit (`_check_bucket`): allowed flag,
tokens remaining after refill, retry-after in seconds, and the persisted
bucket.  The middleware converts the script's milliseconds to seconds
(`retry_ms/1000.0`); the model works in seconds throughout. -/
structure CheckResult where
  allowed : Bool
  tokens : ℚ
  retry_after : ℚ
  bucket : Bucket
  deriving Repr, DecidableEq

/-- Modelled from the spec: the Lua script `rate_limiter.lua` loaded by
`EnhancedRateLimitMiddleware._ensure_lua` is not present under `src/`; per
the spec's bucket math, refill `tokens = min(capacity, tokens +
elapsed_seconds × refill_rate)`; if `tokens ≥ cost`, debit and allow; else
reject with `retry_after = (cost − tokens) / refill_rate`.  The refilled
token count and timestamp are persisted either way. -/
def check_bucket (cap rate cost now : ℚ) (b : Bucket) : CheckResult :=
  let refilled := min cap (b.tokens + (now - b.last_refill) * rate)
  if cost ≤ refilled then
    { allowed := true, tokens := refilled - cost, retry_after := 0,
      bucket := ⟨refilled - cost, now⟩ }
  else
    { allowed := false, tokens := refilled,
      retry_after := (cost - refilled) / rate, bucket := ⟨refilled, now⟩ }

/-- `_reject`: JSON body with the machine-readable reason; the
`Retry-After` header is added only when `retry_after` is truthy
(`if retry_after:`), i.e. nonzero. -/
structure RejectResponse where
  status : ℕ
  body_error : String
  retry_after_header : Option ℚ
  deriving Repr, DecidableEq

def mk_reject (status : ℕ) (reason : String) (retry_after : ℚ) : RejectResponse :=
  { status := status, body_error := reason,
    retry_after_header := if retry_after ≠ 0 then some retry_after else none }

/-- Limiter configuration (constructor defaults of
`EnhancedRateLimitMiddleware.__init__`). -/
structure LimiterConfig where
  capacity_global : ℚ := 1000
  rate_global : ℚ := 1000
  capacity_route : ℚ := 300
  rate_route : ℚ := 300
  capacity_user : ℚ := 200
  rate_user : ℚ := 200
  capacity_ip : ℚ := 150
  rate_ip : ℚ := 150
  cost : ℚ := 1
  max_concurrency : ℕ := 200
  shed_threshold : ℕ := 240

/-- The four scope buckets a single request resolves to
(`rl:g`, `rl:r:{route}`, `rl:u:{user}`, `rl:i:{ip}`). -/
structure LimiterState where
  g : Bucket
  r : Bucket
  u : Bucket
  i : Bucket
  deriving Repr, DecidableEq

inductive MWResult where
  | proceed
  | reject (resp : RejectResponse)
  deriving Repr, DecidableEq

/-- The global-tier check of a request against its `rl:g` bucket. -/
def checkG (cfg : LimiterConfig) (now : ℚ) (st : LimiterState) : CheckResult :=
  check_bucket cfg.capacity_global cfg.rate_global cfg.cost now st.g

def checkR (cfg : LimiterConfig) (now : ℚ) (st : LimiterState) : CheckResult :=
  check_bucket cfg.capacity_route cfg.rate_route cfg.cost now st.r

def checkU (cfg : LimiterConfig) (now : ℚ) (st : LimiterState) : CheckResult :=
  check_bucket cfg.capacity_user cfg.rate_user cfg.cost now st.u

def checkI (cfg : LimiterConfig) (now : ℚ) (st : LimiterState) : CheckResult :=
  check_bucket cfg.capacity_ip cfg.rate_ip cfg.cost now st.i

/-- The hierarchical check loop of `__call__`: global → route → user → ip,
returning at the first failing tier with `rate_limited_{level}` and leaving
every later tier's bucket untouched. -/
def rate_limit_tiers (cfg : LimiterConfig) (now : ℚ) (st : LimiterState) :
    MWResult × LimiterState :=
  let cG := checkG cfg now st
  if cG.allowed then
    let cR := checkR cfg now st
    if cR.allowed then
      let cU := checkU cfg now st
      if cU.allowed then
        let cI := checkI cfg now st
        if cI.allowed then
          (MWResult.proceed, ⟨cG.bucket, cR.bucket, cU.bucket, cI.bucket⟩)
        else
          (MWResult.reject (mk_reject 429 "rate_limited_ip" cI.retry_after),
           ⟨cG.bucket, cR.bucket, cU.bucket, cI.bucket⟩)
      else
        (MWResult.reject (mk_reject 429 "rate_limited_user" cU.retry_after),
         ⟨cG.bucket, cR.bucket, cU.bucket, st.i⟩)
    else
      (MWResult.reject (mk_reject 429 "rate_limited_route" cR.retry_after),
       ⟨cG.bucket, cR.bucket, st.u, st.i⟩)
  else
    (MWResult.reject (mk_reject 429 "rate_limited_global" cG.retry_after),
     ⟨cG.bucket, st.r, st.u, st.i⟩)

/-- `EnhancedRateLimitMiddleware.__call__` up to the semaphore: admission
shedding against the live concurrency gauge first, then the tier loop. -/
def middleware_call (cfg : LimiterConfig) (concurrency : ℕ) (now : ℚ)
    (st : LimiterState) : MWResult × LimiterState :=
  if cfg.shed_threshold ≤ concurrency then
    (MWResult.reject (mk_reject 429 "admission_shed" (1/5)), st)
  else
    rate_limit_tiers cfg now st

/-- **C3.** The four scope buckets are checked in the strict order global →
route → user → ip; the request is rejected at the first failing tier with
that tier's name in the reason, and the buckets of all later tiers are left
untouched (not debited); only when all four tiers allow does the request
proceed, with all four buckets debited. -/
theorem C3_hierarchical_short_circuit (cfg : LimiterConfig) (now : ℚ)
    (st : LimiterState) :
    ((checkG cfg now st).allowed = false →
      rate_limit_tiers cfg now st
        = (MWResult.reject (mk_reject 429 "rate_limited_global"
              (checkG cfg now st).retry_after),
           ⟨(checkG cfg now st).bucket, st.r, st.u, st.i⟩)) ∧
    ((checkG cfg now st).allowed = true → (checkR cfg now st).allowed = false →
      rate_limit_tiers cfg now st
        = (MWResult.reject (mk_reject 429 "rate_limited_route"
              (checkR cfg now st).retry_after),
           ⟨(checkG cfg now st).bucket, (checkR cfg now st).bucket, st.u, st.i⟩)) ∧
    ((checkG cfg now st).allowed = true → (checkR cfg now st).allowed = true →
      (checkU cfg now st).allowed = false →
      rate_limit_tiers cfg now st
        = (MWResult.reject (mk_reject 429 "rate_limited_user"
              (checkU cfg now st).retry_after),
           ⟨(checkG cfg now st).bucket, (checkR cfg now st).bucket,
            (checkU cfg now st).bucket, st.i⟩)) ∧
    ((checkG cfg now st).allowed = true → (checkR cfg now st).allowed = true →
      (checkU cfg now st).allowed = true → (checkI cfg now st).allowed = false →
      rate_limit_tiers cfg now st
        = (MWResult.reject (mk_reject 429 "rate_limited_ip"
              (checkI cfg now st).retry_after),
           ⟨(checkG cfg now st).bucket, (checkR cfg now st).bucket,
            (checkU cfg now st).bucket, (checkI cfg now st).bucket⟩)) ∧
    ((checkG cfg now st).allowed = true → (checkR cfg now st).allowed = true →
      (checkU cfg now st).allowed = true → (checkI cfg now st).allowed = true →
      rate_limit_tiers cfg now st
        = (MWResult.proceed,
           ⟨(checkG cfg now st).bucket, (checkR cfg now st).bucket,
            (checkU cfg now st).bucket, (checkI cfg now st).bucket⟩)) := by
  refine ⟨fun hG => ?_, fun hG hR => ?_, fun hG hR hU => ?_,
    fun hG hR hU hI => ?_, fun hG hR hU hI => ?_⟩
  · simp [rate_limit_tiers, hG]
  · simp [rate_limit_tiers, hG, hR]
  · simp [rate_limit_tiers, hG, hR, hU]
  · simp [rate_limit_tiers, hG, hR, hU, hI]
  · simp [rate_limit_tiers, hG, hR, hU, hI]

/-- A limiter state whose route bucket is empty while every other bucket is
full (timestamps at 0, checked at time 0). -/
def stW : LimiterState := ⟨⟨1000, 0⟩, ⟨0, 0⟩, ⟨200, 0⟩, ⟨150, 0⟩⟩

/-- Witness for C3: with the default configuration and an exhausted route
bucket, the request is rejected at the route tier and the user and ip
buckets are untouched. -/
theorem C3_hierarchical_short_circuit_witness :
    rate_limit_tiers {} 0 stW
      = (MWResult.reject (mk_reject 429 "rate_limited_route"
            (checkR {} 0 stW).retry_after),
         ⟨(checkG {} 0 stW).bucket, (checkR {} 0 stW).bucket, stW.u, stW.i⟩) :=
  (C3_hierarchical_short_circuit {} 0 stW).2.1
    (by norm_num [checkG, check_bucket, stW, min_def])
    (by norm_num [checkR, check_bucket, stW, min_def])

/-- **C4.** Bucket math (Lua script modelled from the spec): the refilled
token count is `min(capacity, tokens + elapsed_seconds × refill_rate)`; a
request costing `cost` is allowed and debited exactly when the refilled
count is at least `cost`; otherwise it is rejected with
`retry_after = (cost − tokens)/refill_rate`, and the reject response
(`_reject`) carries the tier name as the machine-readable reason and, the
rate being positive, a `Retry-After` value. -/
theorem C4_bucket_math (cap rate cost now : ℚ) (b : Bucket) (level : String) :
    (cost ≤ min cap (b.tokens + (now - b.last_refill) * rate) →
      check_bucket cap rate cost now b
        = { allowed := true,
            tokens := min cap (b.tokens + (now - b.last_refill) * rate) - cost,
            retry_after := 0,
            bucket := ⟨min cap (b.tokens + (now - b.last_refill) * rate) - cost,
              now⟩ }) ∧
    (¬ cost ≤ min cap (b.tokens + (now - b.last_refill) * rate) →
      check_bucket cap rate cost now b
        = { allowed := false,
            tokens := min cap (b.tokens + (now - b.last_refill) * rate),
            retry_after := (cost - min cap (b.tokens + (now - b.last_refill) * rate))
              / rate,
            bucket := ⟨min cap (b.tokens + (now - b.last_refill) * rate), now⟩ }) ∧
    (¬ cost ≤ min cap (b.tokens + (now - b.last_refill) * rate) → 0 < rate →
      mk_reject 429 ("rate_limited_" ++ level)
          (check_bucket cap rate cost now b).retry_after
        = { status := 429, body_error := "rate_limited_" ++ level,
            retry_after_header := some
              ((cost - min cap (b.tokens + (now - b.last_refill) * rate))
                / rate) }) := by
  refine ⟨fun h => ?_, fun h => ?_, fun h hr => ?_⟩
  · simp [check_bucket, h]
  · simp [check_bucket, h]
  · have hlt : min cap (b.tokens + (now - b.last_refill) * rate) < cost :=
      lt_of_not_le h
    have hpos : 0 < (cost - min cap (b.tokens + (now - b.last_refill) * rate))
        / rate := div_pos (by linarith) hr
    simp only [check_bucket, if_neg h]
    unfold mk_reject
    rw [if_pos (ne_of_gt hpos)]

/-- Witness for C4: `capacity 5, rate 5, cost 1` on an empty bucket rejects
with `retry_after = 1/5` and the `Retry-After` header present. -/
theorem C4_bucket_math_witness :
    check_bucket 5 5 1 0 ⟨0, 0⟩
      = { allowed := false,
          tokens := min 5 ((0:ℚ) + (0 - 0) * 5),
          retry_after := (1 - min 5 ((0:ℚ) + (0 - 0) * 5)) / 5,
          bucket := ⟨min 5 ((0:ℚ) + (0 - 0) * 5), 0⟩ } ∧
    mk_reject 429 ("rate_limited_" ++ "ip")
        (check_bucket 5 5 1 0 ⟨0, 0⟩).retry_after
      = { status := 429, body_error := "rate_limited_" ++ "ip",
          retry_after_header := some
            ((1 - min 5 ((0:ℚ) + (0 - 0) * 5)) / 5) } :=
  ⟨(C4_bucket_math 5 5 1 0 ⟨0, 0⟩ "ip").2.1 (by norm_num [min_def]),
   (C4_bucket_math 5 5 1 0 ⟨0, 0⟩ "ip").2.2 (by norm_num [min_def]) (by norm_num)⟩

/-- **C5.** When the live concurrency gauge is at or above `shed_threshold`
at admission time, the request is rejected immediately with status 429,
reason `admission_shed` and the short fixed retry-after 0.2s, and the
limiter state is returned untouched — no token bucket is read or debited. -/
theorem C5_admission_shed (cfg : LimiterConfig) (concurrency : ℕ) (now : ℚ)
    (st : LimiterState) (h : cfg.shed_threshold ≤ concurrency) :
    middleware_call cfg concurrency now st
      = (MWResult.reject
          { status := 429, body_error := "admission_shed",
            retry_after_header := some (1/5) }, st) := by
  unfold middleware_call
  rw [if_pos h]
  unfold mk_reject
  rw [if_pos (by norm_num : (1/5 : ℚ) ≠ 0)]

/-- Witness for C5: gauge 240 at the default `shed_threshold` 240 sheds and
leaves the example limiter state unchanged. -/
theorem C5_admission_shed_witness :
    middleware_call {} 240 0 stW
      = (MWResult.reject
          { status := 429, body_error := "admission_shed",
            retry_after_header := some (1/5) }, stW) :=
  C5_admission_shed {} 240 0 stW (by decide)

/-! ## Stale-while-revalidate cache middleware
(`services/api/middleware.py`, `EnhancedCacheMiddleware`).

The entry value (`cache:{hmac}` key) and its metadata hash
(`...:meta`, fields `status`/`ct`/`ts`) are written together with the same
`swr_ttl` expiry, so they are modelled as one optional record with one
expiry deadline. -/

structure CacheEntry where
  body : String
  status : ℕ
  ct : String
  ts : ℚ
  deriving Repr, DecidableEq

inductive CacheOutcome where
  /-- Stored body/status/content-type replayed; `refresh_scheduled` is the
  `asyncio.create_task(self._refresh ...)` background repopulation. -/
  | served (body : String) (status : ℕ) (ct : String) (refresh_scheduled : Bool)
  /-- Downstream handler invoked synchronously; its response is returned and
  stored with expiry `ex`. -/
  | forwarded (stored : CacheEntry) (ex : ℚ)
  deriving Repr, DecidableEq

/-- Redis `GET` against a key whose expiry deadline is `deadline`. -/
def redis_get_entry (now : ℚ) (stored : Option CacheEntry) (deadline : ℚ) :
    Option CacheEntry :=
  if now < deadline then stored else none

/-- The GET/HEAD path of `EnhancedCacheMiddleware.__call__` after key
derivation, given the entry the two reads returned and the downstream
response used on a miss.  `if raw and meta:` tests Python truthiness: an
empty stored body (`b""`) is falsy and falls through to the miss path. -/
def cache_call (default_ttl swr_ttl now : ℚ) (entry : Option CacheEntry)
    (resp_body : String) (resp_status : ℕ) (resp_ct : String) : CacheOutcome :=
  match entry with
  | some e =>
    if e.body ≠ "" then
      CacheOutcome.served e.body e.status e.ct
        (decide (default_ttl < now - e.ts ∧ now - e.ts ≤ swr_ttl))
    else
      CacheOutcome.forwarded ⟨resp_body, resp_status, resp_ct, now⟩ swr_ttl
  | none => CacheOutcome.forwarded ⟨resp_body, resp_status, resp_ct, now⟩ swr_ttl

/-- The middleware composed with the store's expiry behaviour. -/
def cache_middleware (default_ttl swr_ttl now : ℚ) (stored : Option CacheEntry)
    (deadline : ℚ) (resp_body : String) (resp_status : ℕ) (resp_ct : String) :
    CacheOutcome :=
  cache_call default_ttl swr_ttl now (redis_get_entry now stored deadline)
    resp_body resp_status resp_ct

/-- **C7 counterexample.** A stored entry whose body is empty (a cached
empty-bodied response) exists with age `0 ≤ default_ttl`, yet the middleware
treats it as a miss and invokes the downstream handler again — `if raw and
meta:` is false for `raw = b""` — refuting "the stored body is served
without invoking the downstream handler" for fresh entries. -/
theorem C7_counterexample :
    (0 : ℚ) - (CacheEntry.mk "" 200 "application/json" 0).ts ≤ 60 ∧
    cache_middleware 60 300 0 (some ⟨"", 200, "application/json", 0⟩) 300
        "fresh-body" 200 "application/json"
      = CacheOutcome.forwarded ⟨"fresh-body", 200, "application/json", 0⟩ 300 := by
  constructor
  · norm_num
  · simp [cache_middleware, cache_call, redis_get_entry]

/-- **C7 (amended).** For a stored entry with a non-empty body: within
`default_ttl` the stored body, status and content-type are served
byte-identically with no handler call and no refresh; between `default_ttl`
and `swr_ttl` the stored response is served and one background repopulation
is scheduled.  An entry older than `swr_ttl` has expired from the store, and
on an absent entry the handler runs synchronously, its response is stored
with `swr_ttl` expiry and returned.  A stored entry with an empty body fails
the truthiness check and is treated as a miss (handler invoked again). -/
theorem C7_swr_cache (default_ttl swr_ttl now deadline : ℚ) (e : CacheEntry)
    (rb : String) (rs : ℕ) (rc : String) :
    (now < deadline → e.body ≠ "" → now - e.ts ≤ default_ttl →
      cache_middleware default_ttl swr_ttl now (some e) deadline rb rs rc
        = CacheOutcome.served e.body e.status e.ct false) ∧
    (now < deadline → e.body ≠ "" → default_ttl < now - e.ts →
      now - e.ts ≤ swr_ttl →
      cache_middleware default_ttl swr_ttl now (some e) deadline rb rs rc
        = CacheOutcome.served e.body e.status e.ct true) ∧
    (deadline = e.ts + swr_ttl → swr_ttl < now - e.ts →
      cache_middleware default_ttl swr_ttl now (some e) deadline rb rs rc
        = CacheOutcome.forwarded ⟨rb, rs, rc, now⟩ swr_ttl) ∧
    (cache_middleware default_ttl swr_ttl now none deadline rb rs rc
        = CacheOutcome.forwarded ⟨rb, rs, rc, now⟩ swr_ttl) ∧
    (now < deadline → e.body = "" →
      cache_middleware default_ttl swr_ttl now (some e) deadline rb rs rc
        = CacheOutcome.forwarded ⟨rb, rs, rc, now⟩ swr_ttl) := by
  refine ⟨fun hd hb hfresh => ?_, fun hd hb hstale1 hstale2 => ?_,
    fun hdl hexp => ?_, ?_, fun hd hb => ?_⟩
  · simp only [cache_middleware, redis_get_entry, if_pos hd, cache_call,
      if_pos hb]
    congr 1
    simp only [decide_eq_false_iff_not]
    intro hcon
    linarith [hcon.1]
  · simp only [cache_middleware, redis_get_entry, if_pos hd, cache_call,
      if_pos hb]
    congr 1
    simp [hstale1, hstale2]
  · have : ¬ now < deadline := by rw [hdl]; linarith
    simp [cache_middleware, redis_get_entry, this, cache_call]
  · simp [cache_middleware, redis_get_entry, cache_call]
  · simp [cache_middleware, redis_get_entry, if_pos hd, cache_call, hb]

/-- Witness for C7 (amended): a non-empty entry written at t=0 and read at
t=100 with `default_ttl = 60 < 100 ≤ 300 = swr_ttl` is served stale with one
background refresh scheduled. -/
theorem C7_swr_cache_witness :
    cache_middleware 60 300 100 (some ⟨"cached-body", 200, "text/plain", 0⟩)
        300 "new-body" 200 "text/plain"
      = CacheOutcome.served "cached-body" 200 "text/plain" true :=
  (C7_swr_cache 60 300 100 300 ⟨"cached-body", 200, "text/plain", 0⟩
      "new-body" 200 "text/plain").2.1
    (by norm_num) (by simp) (by norm_num) (by norm_num)

/-! ## Compute-once primitive (`services/core/cache.py`,
`CacheStrategy.get_or_set`).

Payloads are modelled at the value level (`json.dumps`/`json.loads`
round-trip); the malformed-JSON regeneration branch cannot arise for values
the strategy itself stored and is unrepresentable at this level.  The
poll loop (`while monotonic() < deadline: sleep(0.2); get`) runs a finite
number of iterations bounded by `lock_expiration / 0.2`; the sequence of
values it observes is the `polls` argument. -/

/-- `CacheStrategy.TIERS` with the `TIERS.get(tier, TIERS["warm"])`
fallback. -/
def tier_ttl : String → ℕ
  | "hot" => 60
  | "warm" => 300
  | "cold" => 3600
  | "frozen" => 86400
  | _ => 300

/-- `ttl or self.TIERS.get(tier, ...)`: an explicit ttl is used only when
truthy (nonzero). -/
def ttl_seconds (ttl : Option ℕ) (tier : String) : ℕ :=
  match ttl with
  | some t => if t ≠ 0 then t else tier_ttl tier
  | none => tier_ttl tier

/-- `get_or_set`, returning the payload handed to the caller and the cache
write performed, if any (`setex key ttl payload`).  `cached0` is the initial
`GET`; `lock_won` is the outcome of `SET lock NX EX`; `polls` are the values
the loser's bounded poll loop reads. -/
def get_or_set (cached0 : Option String) (lock_won : Bool)
    (polls : List (Option String)) (loaderVal : String)
    (tier : String) (ttl : Option ℕ) : String × Option (String × ℕ) :=
  match cached0 with
  | some c => (c, none)
  | none =>
    if lock_won then
      (loaderVal, some (loaderVal, ttl_seconds ttl tier))
    else
      match polls.findSome? id with
      | some c => (c, none)
      | none => (loaderVal, none)

/-- **C8.** `get_or_set` is total (never raises on lock contention, never
polls beyond its finite deadline-bounded window): a cache hit is returned
without calling the loader or writing; on a miss, exactly the lock winner
computes the loader value and stores it under the tier-or-explicit TTL; a
loser returns the first value its bounded polling observes, and if the key
is still unpopulated at the deadline it returns the loader value directly
without writing it to the cache. -/
theorem C8_get_or_set_degrades (cached0 : Option String) (lock_won : Bool)
    (polls : List (Option String)) (loaderVal : String) (tier : String)
    (ttl : Option ℕ) :
    (∀ c, cached0 = some c →
      get_or_set cached0 lock_won polls loaderVal tier ttl = (c, none)) ∧
    (cached0 = none → lock_won = true →
      get_or_set cached0 lock_won polls loaderVal tier ttl
        = (loaderVal, some (loaderVal, ttl_seconds ttl tier))) ∧
    (∀ c, cached0 = none → lock_won = false → polls.findSome? id = some c →
      get_or_set cached0 lock_won polls loaderVal tier ttl = (c, none)) ∧
    (cached0 = none → lock_won = false → polls.findSome? id = none →
      get_or_set cached0 lock_won polls loaderVal tier ttl
        = (loaderVal, none)) := by
  refine ⟨fun c hc => ?_, fun hc hw => ?_, fun c hc hw hp => ?_,
    fun hc hw hp => ?_⟩
  · subst hc; rfl
  · subst hc; subst hw; rfl
  · subst hc; subst hw
    simp [get_or_set, hp]
  · subst hc; subst hw
    simp [get_or_set, hp]

/-- Witness for C8: a loser whose two polls both come back empty falls back
to the direct loader result and performs no cache write. -/
theorem C8_get_or_set_degrades_witness :
    get_or_set none false [none, none] "computed" "warm" none
      = ("computed", none) :=
  (C8_get_or_set_degrades none false [none, none] "computed" "warm"
      none).2.2.2 rfl rfl rfl

/-! ## Serialization boundary (`services/proxy/models.py`,
`Proxy.to_dict` / `Proxy.from_dict`).

The Redis hash holds strings; the model works up to the standard-library
bijections at the boundary: `datetime.isoformat`/`fromisoformat` identify
`datetime` values with non-empty ISO strings (`''` standing for the falsy
empty string written for `None`), and `json.dumps`/`json.loads` identify a
float list with its (always non-empty, hence truthy) dump.  `int()`/
`float()` applied by `from_dict` to the already-numeric values `asdict`
produced are the identity; they are skipped entirely when the value is
falsy (zero), which is also the identity. -/

structure ProxyDict where
  url : String
  provider : String
  proxy_type : String
  location : String
  username : String
  password : String
  sticky_session_id : String
  requests : ℕ
  failures : ℕ
  success : ℕ
  total_bandwidth_mb : ℚ
  last_used : Option ℚ
  last_error : String
  response_times : Option (List ℚ)
  deriving Repr, DecidableEq

/-- `Proxy.to_dict`: `asdict`, ISO-or-empty `last_used`, json dump of the
last 100 response times, then every remaining `None` replaced by `''`. -/
def to_dict (p : Proxy) : ProxyDict :=
  { url := p.url, provider := p.provider, proxy_type := p.proxy_type,
    location := p.location.getD "", username := p.username.getD "",
    password := p.password.getD "",
    sticky_session_id := p.sticky_session_id.getD "",
    requests := p.requests, failures := p.failures, success := p.success,
    total_bandwidth_mb := p.total_bandwidth_mb,
    last_used := p.last_used,
    last_error := p.last_error.getD "",
    response_times := some (Proxy.lastN 100 p.response_times) }

/-- `Proxy.from_dict`: parse `last_used` when truthy, parse the response
times dump when present (a dump is never the falsy `''`; an absent one
would reach `__post_init__` and stay as passed — unreachable from
`to_dict`), convert truthy numeric fields, then `cls(**data)`, so the
optional text fields receive the plain (possibly empty) strings. -/
def from_dict (d : ProxyDict) : Proxy :=
  { url := d.url, provider := d.provider, proxy_type := d.proxy_type,
    location := some d.location, username := some d.username,
    password := some d.password,
    sticky_session_id := some d.sticky_session_id,
    requests := d.requests, failures := d.failures, success := d.success,
    total_bandwidth_mb := d.total_bandwidth_mb,
    last_used := d.last_used,
    last_error := some d.last_error,
    response_times := d.response_times.getD [] }

/-- **C10.** Round trip at the store boundary: `from_dict (to_dict p)`
preserves url, provider, proxy_type, the three counters,
total_bandwidth_mb and last_used; its response_times are the last 100
entries of `p.response_times`; and every optional text field that was
`None` comes back as the empty string rather than `None`. -/
theorem C10_round_trip (p : Proxy) :
    (from_dict (to_dict p)).url = p.url ∧
    (from_dict (to_dict p)).provider = p.provider ∧
    (from_dict (to_dict p)).proxy_type = p.proxy_type ∧
    (from_dict (to_dict p)).requests = p.requests ∧
    (from_dict (to_dict p)).failures = p.failures ∧
    (from_dict (to_dict p)).success = p.success ∧
    (from_dict (to_dict p)).total_bandwidth_mb = p.total_bandwidth_mb ∧
    (from_dict (to_dict p)).last_used = p.last_used ∧
    (from_dict (to_dict p)).response_times = Proxy.lastN 100 p.response_times ∧
    (p.location = none → (from_dict (to_dict p)).location = some "") ∧
    (p.username = none → (from_dict (to_dict p)).username = some "") ∧
    (p.password = none → (from_dict (to_dict p)).password = some "") ∧
    (p.sticky_session_id = none →
      (from_dict (to_dict p)).sticky_session_id = some "") ∧
    (p.last_error = none → (from_dict (to_dict p)).last_error = some "") := by
  refine ⟨rfl, rfl, rfl, rfl, rfl, rfl, rfl, rfl, rfl, fun h => ?_,
    fun h => ?_, fun h => ?_, fun h => ?_, fun h => ?_⟩ <;>
    simp [from_dict, to_dict, h]

/-- Witness for C10: a proxy with all optional text fields `None`
round-trips them to empty strings. -/
theorem C10_round_trip_witness :
    (from_dict (to_dict cexP1)).location = some "" ∧
    (from_dict (to_dict cexP1)).last_error = some "" :=
  ⟨(C10_round_trip cexP1).2.2.2.2.2.2.2.2.2.1 rfl,
   (C10_round_trip cexP1).2.2.2.2.2.2.2.2.2.2.2.2.2 rfl⟩

end NightMarket
